import Mathlib

/-!
Verification of the Game-analytics dashboard pages
(`1_Competitions.py`, `2_Complexes_Venues.py`, `3_Competitor_Rankings.py`).

The pages are Streamlit scripts: a cached connection provider
(`get_db_connection`), a query runner (`run_sql_query`) and per-page SQL
strings composed from widget state.  We embed the Python code shallowly:

* the external relational store is modelled by a value of type `Store`
  (its tables) together with standard SQL evaluation of the specific
  queries the pages issue;
* the SQLAlchemy engine is modelled by `Engine`, a function from the SQL
  text to either a result `Table` or a failure message — this captures
  everything the Python code can observe of `connection.execute`;
* Streamlit output calls (`st.warning`, `st.error`) are modelled by an
  explicit message list returned next to the result.
-/

/-- A tabular result: ordered column names plus ordered rows, as built by
`pd.DataFrame(result.fetchall(), columns=result.keys())`.  Cell values are
kept as strings, which suffices for the scenarios verified here. -/
structure Table where
  cols : List String
  rows : List (List String)
deriving DecidableEq, Repr

/-- The empty `pd.DataFrame()`: zero rows, zero columns. -/
def Table.empty : Table := ⟨[], []⟩

/-- Model of a live SQLAlchemy engine: executing a SQL text either
yields a result table or fails with an error message (the stringified
exception the `except` block would catch). -/
structure Engine where
  exec : String → Except String Table

/-- User-visible messages emitted by the page via Streamlit. -/
inductive Msg where
  | warning (text : String)
  | error (text : String)
deriving DecidableEq, Repr

/-- Embedding of `run_sql_query(query, engine_obj)` from
`1_Competitions.py` lines 36-47 (the same function appears verbatim in
the other two pages).  Returns the resulting dataframe together with the
list of Streamlit messages emitted during the call.  The Python
`try/except Exception` swallows every failure, so the embedding is a
total function: no exception ever reaches the caller. -/
def run_sql_query (query : String) (engine_obj : Option Engine) : Table × List Msg :=
  match engine_obj with
  | none =>
      (Table.empty, [Msg.warning "Database connection not established. Some features may not work."])
  | some eng =>
      match eng.exec query with
      | Except.ok df => (df, [])
      | Except.error e => (Table.empty, [Msg.error ("Error executing query: " ++ e)])

/-- Embedding of `get_db_connection()` (lines 19-29 of
`1_Competitions.py`): the whole body — `create_engine` plus the
`SELECT 1` liveness probe — sits inside `try/except Exception: return
None`.  Its outcome is therefore a function of the attempt's result,
which we pass in explicitly: a successfully probed engine, or the
failure that was raised (unreachable host, bad credentials, probe
error), each represented by its message. -/
def get_db_connection (attempt : Except String Engine) : Option Engine :=
  match attempt with
  | Except.ok engine => some engine
  | Except.error _ => none

/-- C5: with a `None` engine handle, `run_sql_query` returns the empty
dataframe (zero rows, zero columns) and emits exactly one warning, for
every SQL string; being a total Lean function, it raises nothing. -/
theorem runQuery_none_empty_one_warning (query : String) :
    run_sql_query query none =
      (Table.empty,
       [Msg.warning "Database connection not established. Some features may not work."]) ∧
    Table.empty.rows = [] ∧ Table.empty.cols = [] := by
  refine ⟨rfl, rfl, rfl⟩

/-- C6: when execution of the SQL fails with message `e`, `run_sql_query`
emits one user-visible error whose text contains the underlying failure
text `e`, returns the empty table, and (as a total function) propagates
no exception. -/
theorem runQuery_failure_swallowed (query : String) (eng : Engine) (e : String)
    (hfail : eng.exec query = Except.error e) :
    run_sql_query query (some eng) =
      (Table.empty, [Msg.error ("Error executing query: " ++ e)]) ∧
    ∃ before after, "Error executing query: " ++ e = before ++ e ++ after := by
  refine ⟨?_, "Error executing query: ", "", by simp⟩
  simp [run_sql_query, hfail]

/-- C7: every failure during connection establishment makes
`get_db_connection` return `None`; the surrounding `try/except` means no
exception reaches the caller, which the totality of the embedding
witnesses. -/
theorem getConnection_failure_none (failure : String) :
    get_db_connection (Except.error failure) = none := rfl

/-- Witness for `runQuery_failure_swallowed` at a concrete failing engine. -/
theorem runQuery_failure_swallowed_witness :
    run_sql_query "SELEC 1" (some ⟨fun _ => Except.error "syntax error"⟩) =
      (Table.empty, [Msg.error ("Error executing query: " ++ "syntax error")]) ∧
    ∃ before after,
      "Error executing query: " ++ "syntax error" = before ++ "syntax error" ++ after :=
  runQuery_failure_swallowed "SELEC 1" ⟨fun _ => Except.error "syntax error"⟩ "syntax error" rfl

/-! ## Data model of the external relational store (spec §3)

Rows of the tables the rankings page reads.  `rank` is a positive
integer and `points` a non-negative number per the schema, modelled as
`Nat` (positivity of `rank` is assumed where a claim needs it). -/

/-- A row of the `competitors` table. -/
structure Competitor where
  competitor_id : Nat
  name : String
  country : String
  country_code : String
  abbreviation : String
deriving DecidableEq, Repr

/-- A row of the `competitor_rankings` table. -/
structure CompetitorRanking where
  competitor_id : Nat
  rank : Nat
  movement : Int
  points : Nat
  competitions_played : Nat
deriving DecidableEq, Repr

/-- The snapshot of the store the rankings page queries. -/
structure Store where
  competitors : List Competitor
  competitor_rankings : List CompetitorRanking
deriving DecidableEq, Repr

/-! ## Filter state of the rankings page (`3_Competitor_Rankings.py` lines 52-70) -/

/-- The widget values the rankings page reads: text search, the four
numeric bounds, and the country dropdown (sentinel `"All"`). -/
structure FilterState where
  competitor_name_search : String
  min_rank : Nat
  max_rank : Nat
  min_points : Nat
  max_points : Nat
  selected_country_competitor : String
deriving DecidableEq, Repr

/-- The widget defaults: empty search, `value=1` / `value=10000` for the
rank inputs, `value=0` / `value=1000000` for the points inputs, country
dropdown at index 0 (`All`). -/
def default_filter_state : FilterState :=
  { competitor_name_search := ""
    min_rank := 1
    max_rank := 10000
    min_points := 0
    max_points := 1000000
    selected_country_competitor := "All" }

/-! ## The composed SQL text (`3_Competitor_Rankings.py` lines 72-94)

The Python builds `search_query_base` by successive `+=`; we mirror the
same left-to-right concatenation.  The layout whitespace of the
triple-quoted literal is normalised to single spaces; the SQL text is
otherwise verbatim. -/

/-- The constant `SELECT ... WHERE 1 = 1` head of the search query. -/
def search_select_head : String :=
  "SELECT c.name AS competitor_name, cr.rank, cr.movement, cr.points, cr.competitions_played, c.country, c.country_code FROM competitor_rankings cr JOIN competitors c ON cr.competitor_id = c.competitor_id WHERE 1 = 1"

/-- The rank bounds fragment, appended unconditionally (line 88). -/
def rank_bounds_clause (st : FilterState) : String :=
  " AND cr.rank >= " ++ toString st.min_rank ++ " AND cr.rank <= " ++ toString st.max_rank

/-- The points bounds fragment, appended unconditionally (line 89). -/
def points_bounds_clause (st : FilterState) : String :=
  " AND cr.points >= " ++ toString st.min_points ++ " AND cr.points <= " ++ toString st.max_points

/-- Embedding of the `search_query_base` composition: head, optional
ILIKE clause (only when the search text is non-empty), rank bounds,
points bounds, optional country equality (only when the dropdown is not
`All`), and the `ORDER BY`. -/
def search_query_base (st : FilterState) : String :=
  let q := search_select_head
  let q := if st.competitor_name_search ≠ "" then
      q ++ (" AND c.name ILIKE " ++ "'%" ++ st.competitor_name_search ++ "%'")
    else q
  let q := q ++ rank_bounds_clause st
  let q := q ++ points_bounds_clause st
  let q := if st.selected_country_competitor ≠ "All" then
      q ++ (" AND c.country = " ++ "'" ++ st.selected_country_competitor ++ "'")
    else q
  q ++ " ORDER BY cr.rank;"

/-! ## Evaluation of the search query by the external store

Modelled from the spec: the datastore boundary (§6) evaluates plain
SQL.  For the search query this is the inner join of
`competitor_rankings` with `competitors` on `competitor_id`, the WHERE
predicates exactly as composed above, and an ascending sort on
`cr.rank`. -/

/-- Case-insensitive substring test: `needle.isPrefixOf` at every
suffix of the haystack.  This is the meaning of
`name ILIKE '%needle%'` for a needle without SQL wildcard characters. -/
def containsSub (needle : List Char) : List Char → Bool
  | [] => needle.isEmpty
  | b :: bs => needle.isPrefixOf (b :: bs) || containsSub needle bs

/-- Lower-cased character list of a string. -/
def lowerChars (s : String) : List Char := s.data.map Char.toLower

/-- `name ILIKE '%pat%'` (PostgreSQL): case-insensitive containment. -/
def ilikeContains (name pat : String) : Bool :=
  containsSub (lowerChars pat) (lowerChars name)

/-- The WHERE predicate of the composed search query, evaluated on one
joined row: `1 = 1`, the optional ILIKE, the two unconditional range
predicates, and the optional country equality. -/
def rowMatches (st : FilterState) (c : Competitor) (cr : CompetitorRanking) : Bool :=
  (st.competitor_name_search == "" || ilikeContains c.name st.competitor_name_search) &&
  (decide (st.min_rank ≤ cr.rank) && decide (cr.rank ≤ st.max_rank)) &&
  (decide (st.min_points ≤ cr.points) && decide (cr.points ≤ st.max_points)) &&
  (st.selected_country_competitor == "All" || c.country == st.selected_country_competitor)

/-- `competitor_rankings cr JOIN competitors c ON cr.competitor_id =
c.competitor_id`. -/
def joinRankings (store : Store) : List (Competitor × CompetitorRanking) :=
  store.competitor_rankings.flatMap (fun cr =>
    (store.competitors.filter (fun c => c.competitor_id == cr.competitor_id)).map
      (fun c => (c, cr)))

/-- Insert into a sorted list according to a boolean comparator. -/
def insertSorted (le : α → α → Bool) (a : α) : List α → List α
  | [] => [a]
  | b :: bs => if le a b then a :: b :: bs else b :: insertSorted le a bs

/-- Insertion sort according to a boolean comparator (a deterministic
model of the store's ORDER BY). -/
def insertionSort (le : α → α → Bool) : List α → List α
  | [] => []
  | a :: as => insertSorted le a (insertionSort le as)

/-- Comparator for `ORDER BY cr.rank`. -/
def byRank (x y : Competitor × CompetitorRanking) : Bool :=
  decide (x.2.rank ≤ y.2.rank)

/-- Modelled from the spec: the rows of `filtered_competitors_df`
(line 96) — the store's evaluation of the composed search query. -/
def filtered_competitors (st : FilterState) (store : Store) :
    List (Competitor × CompetitorRanking) :=
  insertionSort byRank ((joinRankings store).filter (fun p => rowMatches st p.1 p.2))

/-- Modelled from the spec: the same SELECT with no WHERE constraints —
the unfiltered query the spec compares against. -/
def unfiltered_competitors (store : Store) : List (Competitor × CompetitorRanking) :=
  insertionSort byRank (joinRankings store)

/-! ### Helper lemmas on sorting, joining and containment -/

theorem mem_insertSorted (le : α → α → Bool) (a x : α) (l : List α) :
    x ∈ insertSorted le a l ↔ x = a ∨ x ∈ l := by
  induction l with
  | nil => simp [insertSorted]
  | cons b bs ih =>
      simp only [insertSorted]
      split
      · simp [List.mem_cons]
      · simp only [List.mem_cons, ih]
        tauto

theorem mem_insertionSort (le : α → α → Bool) (x : α) (l : List α) :
    x ∈ insertionSort le l ↔ x ∈ l := by
  induction l with
  | nil => simp [insertionSort]
  | cons a as ih => simp [insertionSort, mem_insertSorted, ih]

theorem mem_joinRankings_comp {store : Store} {p : Competitor × CompetitorRanking}
    (hp : p ∈ joinRankings store) : p.1 ∈ store.competitors := by
  simp only [joinRankings, List.mem_flatMap, List.mem_map, List.mem_filter] at hp
  obtain ⟨cr, _, c, ⟨hc, _⟩, rfl⟩ := hp
  exact hc

theorem containsSub_nil (l : List Char) : containsSub [] l = true := by
  cases l <;> simp [containsSub, List.isEmpty, List.isPrefixOf]

theorem ilikeContains_empty (name : String) : ilikeContains name "" = true := by
  simp [ilikeContains, lowerChars, containsSub_nil]

/-- A row that passes the composed WHERE clause satisfies both rank
bounds (the two unconditional predicates of line 88). -/
theorem rowMatches_rank_bounds {st : FilterState} {c : Competitor}
    {cr : CompetitorRanking} (h : rowMatches st c cr = true) :
    st.min_rank ≤ cr.rank ∧ cr.rank ≤ st.max_rank := by
  rw [rowMatches] at h
  simp only [Bool.and_eq_true, decide_eq_true_eq] at h
  constructor <;> tauto

/-- A row that passes the composed WHERE clause satisfies the
case-insensitive name containment (trivially so when the search text is
empty, since the empty string is contained in every name). -/
theorem rowMatches_name_contained {st : FilterState} {c : Competitor}
    {cr : CompetitorRanking} (h : rowMatches st c cr = true) :
    ilikeContains c.name st.competitor_name_search = true := by
  rw [rowMatches] at h
  simp only [Bool.and_eq_true, Bool.or_eq_true, beq_iff_eq] at h
  have h1 : st.competitor_name_search = "" ∨
      ilikeContains c.name st.competitor_name_search = true := by tauto
  rcases h1 with he | ht
  · rw [he]
    exact ilikeContains_empty c.name
  · exact ht

/-- C2: every row of the filtered competitors result satisfies
`lo ≤ rank ≤ hi`, and an inverted range (`hi < lo`) yields the empty
result. -/
theorem rank_range_filter (st : FilterState) (store : Store)
    (c : Competitor) (cr : CompetitorRanking) :
    ((c, cr) ∈ filtered_competitors st store →
      st.min_rank ≤ cr.rank ∧ cr.rank ≤ st.max_rank) ∧
    (st.max_rank < st.min_rank → filtered_competitors st store = []) := by
  constructor
  · intro hmem
    rw [filtered_competitors, mem_insertionSort, List.mem_filter] at hmem
    exact rowMatches_rank_bounds hmem.2
  · intro hlt
    rw [filtered_competitors]
    have hnil : (joinRankings store).filter (fun p => rowMatches st p.1 p.2) = [] := by
      rw [List.filter_eq_nil_iff]
      intro p _ hmatch
      have hb := rowMatches_rank_bounds hmatch
      omega
    rw [hnil]
    rfl

/-- The store of the spec scenario for C2: four ranked competitors with
ranks 1, 3, 6, 10. -/
def scenario_store : Store :=
  { competitors :=
      [⟨1, "Ann", "USA", "USA", "ANN"⟩, ⟨2, "Ben", "ESP", "ESP", "BEN"⟩,
       ⟨3, "Cal", "FRA", "FRA", "CAL"⟩, ⟨4, "Dee", "USA", "USA", "DEE"⟩]
    competitor_rankings :=
      [⟨1, 1, 0, 900, 5⟩, ⟨2, 3, 1, 700, 4⟩, ⟨3, 6, -1, 400, 6⟩, ⟨4, 10, 0, 100, 2⟩] }

/-- Witness for `rank_range_filter`: with range `[1, 5]` the rank-1 row
is in the result and its rank is within bounds; with the inverted range
`[6, 2]` the result is empty. -/
theorem rank_range_filter_witness :
    ((1 : Nat) ≤ 1 ∧ (1 : Nat) ≤ 5) ∧
    filtered_competitors ⟨"", 6, 2, 0, 1000000, "All"⟩ scenario_store = [] :=
  ⟨(rank_range_filter ⟨"", 1, 5, 0, 1000000, "All"⟩ scenario_store
      ⟨1, "Ann", "USA", "USA", "ANN"⟩ ⟨1, 1, 0, 900, 5⟩).1 (by decide),
   (rank_range_filter ⟨"", 6, 2, 0, 1000000, "All"⟩ scenario_store
      ⟨1, "Ann", "USA", "USA", "ANN"⟩ ⟨1, 1, 0, 900, 5⟩).2 (by decide)⟩

/-- C4: every competitor name in the filtered result contains the search
text case-insensitively, and a search text contained in no competitor
name yields the empty result. -/
theorem name_search_filter (st : FilterState) (store : Store)
    (c : Competitor) (cr : CompetitorRanking) :
    ((c, cr) ∈ filtered_competitors st store →
      ilikeContains c.name st.competitor_name_search = true) ∧
    ((∀ comp ∈ store.competitors,
        ilikeContains comp.name st.competitor_name_search = false) →
      filtered_competitors st store = []) := by
  constructor
  · intro hmem
    rw [filtered_competitors, mem_insertionSort, List.mem_filter] at hmem
    exact rowMatches_name_contained hmem.2
  · intro hnone
    rw [filtered_competitors]
    have hnil : (joinRankings store).filter (fun p => rowMatches st p.1 p.2) = [] := by
      rw [List.filter_eq_nil_iff]
      intro p hp hmatch
      have hfalse := hnone p.1 (mem_joinRankings_comp hp)
      rw [rowMatches_name_contained hmatch] at hfalse
      exact Bool.noConfusion hfalse
    rw [hnil]
    rfl

/-- Witness for `name_search_filter`: searching `"AN"` keeps the row of
`"Ann"` whose name contains it case-insensitively, and searching
`"zz"` (contained in no name of the scenario store) yields the empty
result. -/
theorem name_search_filter_witness :
    ilikeContains "Ann" "AN" = true ∧
    filtered_competitors ⟨"zz", 1, 10000, 0, 1000000, "All"⟩ scenario_store = [] :=
  ⟨(name_search_filter ⟨"AN", 1, 10000, 0, 1000000, "All"⟩ scenario_store
      ⟨1, "Ann", "USA", "USA", "ANN"⟩ ⟨1, 1, 0, 900, 5⟩).1 (by decide),
   (name_search_filter ⟨"zz", 1, 10000, 0, 1000000, "All"⟩ scenario_store
      ⟨1, "Ann", "USA", "USA", "ANN"⟩ ⟨1, 1, 0, 900, 5⟩).2 (by decide)⟩

/-- C3: the composed rankings query always contains the contiguous rank
and points bounds fragments — both a lower and an upper bound on each,
for every filter state — and when the user leaves the inputs unset the
bounds default to `rank ∈ [1, 10000]` and `points ∈ [0, 1000000]`, the
full range the widgets permit by default. -/
theorem range_filters_always_present (st : FilterState) :
    (∃ before after,
        search_query_base st =
          before ++ (rank_bounds_clause st ++ points_bounds_clause st) ++ after) ∧
    rank_bounds_clause default_filter_state =
      " AND cr.rank >= 1 AND cr.rank <= 10000" ∧
    points_bounds_clause default_filter_state =
      " AND cr.points >= 0 AND cr.points <= 1000000" := by
  refine ⟨?_, rfl, rfl⟩
  simp only [search_query_base]
  split_ifs with h1 h2 h3
  · exact ⟨search_select_head ++
        (" AND c.name ILIKE " ++ "'%" ++ st.competitor_name_search ++ "%'"),
      (" AND c.country = " ++ "'" ++ st.selected_country_competitor ++ "'") ++
        " ORDER BY cr.rank;",
      by simp [String.append_assoc]⟩
  · exact ⟨search_select_head,
      (" AND c.country = " ++ "'" ++ st.selected_country_competitor ++ "'") ++
        " ORDER BY cr.rank;",
      by simp [String.append_assoc]⟩
  · exact ⟨search_select_head ++
        (" AND c.name ILIKE " ++ "'%" ++ st.competitor_name_search ++ "%'"),
      " ORDER BY cr.rank;", by simp [String.append_assoc]⟩
  · exact ⟨search_select_head, " ORDER BY cr.rank;", by simp [String.append_assoc]⟩

/-! ## Competitions page (`1_Competitions.py`) -/

/-- A row of the `categories` table. -/
structure Category where
  category_id : Nat
  category_name : String
deriving DecidableEq, Repr

/-- A row of the `competitions` table. -/
structure Competition where
  competition_id : Nat
  competition_name : String
  category_id : Nat
  type : String
  gender : String
  level : String
  parent_id : Option Nat
deriving DecidableEq, Repr

/-- The snapshot of the store the competitions page queries. -/
structure CompStore where
  categories : List Category
  competitions : List Competition
deriving DecidableEq, Repr

/-- The four dropdown values of the competitions page (lines 63-90),
each defaulting to the sentinel `"All"`. -/
structure CompFilterState where
  selected_category : String
  selected_type : String
  selected_gender : String
  selected_level : String
deriving DecidableEq, Repr

/-- Embedding of the `where_clauses` list built at lines 93-101: one
equality predicate per dropdown that is not at the `All` sentinel. -/
def where_clauses (st : CompFilterState) : List String :=
  (if st.selected_category ≠ "All" then
      ["cat.category_name = " ++ "'" ++ st.selected_category ++ "'"] else []) ++
  (if st.selected_type ≠ "All" then
      ["c.type = " ++ "'" ++ st.selected_type ++ "'"] else []) ++
  (if st.selected_gender ≠ "All" then
      ["c.gender = " ++ "'" ++ st.selected_gender ++ "'"] else []) ++
  (if st.selected_level ≠ "All" then
      ["c.level = " ++ "'" ++ st.selected_level ++ "'"] else [])

/-- Python's `" AND ".join`. -/
def joinAnd : List String → String
  | [] => ""
  | [c] => c
  | c :: cs => c ++ " AND " ++ joinAnd cs

/-- Line 103: `"WHERE " + " AND ".join(where_clauses) if where_clauses
else ""` — the empty string when no filter is active. -/
def where_condition (st : CompFilterState) : String :=
  if where_clauses st ≠ [] then "WHERE " ++ joinAnd (where_clauses st) else ""

/-- The WHERE predicate of the filtered competitions query on one joined
row: each dropdown either at the sentinel or matching its column. -/
def compMatches (st : CompFilterState) (c : Competition) (cat : Category) : Bool :=
  (st.selected_category == "All" || cat.category_name == st.selected_category) &&
  (st.selected_type == "All" || c.type == st.selected_type) &&
  (st.selected_gender == "All" || c.gender == st.selected_gender) &&
  (st.selected_level == "All" || c.level == st.selected_level)

/-- `competitions c JOIN categories cat ON c.category_id =
cat.category_id`. -/
def joinCompetitions (s : CompStore) : List (Competition × Category) :=
  s.competitions.flatMap (fun c =>
    (s.categories.filter (fun cat => cat.category_id == c.category_id)).map
      (fun cat => (c, cat)))

/-- Ascending lexicographic comparison of character lists by code
point, the model of the store's text ordering. -/
def lexLe : List Char → List Char → Bool
  | [], _ => true
  | _ :: _, [] => false
  | a :: as, b :: bs =>
      if a.toNat < b.toNat then true
      else if b.toNat < a.toNat then false
      else lexLe as bs

/-- String comparison for ORDER BY on text columns. -/
def strLe (a b : String) : Bool := lexLe a.data b.data

/-- Comparator for `ORDER BY cat.category_name, c.competition_name`. -/
def byCategoryThenName (x y : Competition × Category) : Bool :=
  if x.2.category_name = y.2.category_name then
    strLe x.1.competition_name y.1.competition_name
  else strLe x.2.category_name y.2.category_name

/-- Modelled from the spec: the rows of `filtered_competitions_df`
(line 120) — the store's evaluation of the filtered competitions
query. -/
def filtered_competitions (st : CompFilterState) (s : CompStore) :
    List (Competition × Category) :=
  insertionSort byCategoryThenName
    ((joinCompetitions s).filter (fun p => compMatches st p.1 p.2))

/-- Modelled from the spec: the same SELECT with no WHERE clause. -/
def unfiltered_competitions (s : CompStore) : List (Competition × Category) :=
  insertionSort byCategoryThenName (joinCompetitions s)

/-- A store holding one competitor whose rank exceeds the default upper
bound of the rank widget. -/
def cex_store : Store :=
  { competitors := [⟨1, "Player", "USA", "USA", "PLR"⟩]
    competitor_rankings := [⟨1, 10001, 0, 500, 3⟩] }

/-- Counterexample for C1: with every rankings-page filter at its
default (empty search, rank `[1, 10000]`, points `[0, 1000000]`,
country `All`), the filtered result drops the rank-10001 row, so it
differs from the unfiltered query even though no filter was touched —
the default numeric bounds are not tautological. -/
theorem all_defaults_counterexample :
    filtered_competitors default_filter_state cex_store ≠
      unfiltered_competitors cex_store ∧
    unfiltered_competitors cex_store ≠ [] := by
  constructor <;> decide

/-- C1 (amended): with every categorical filter at the `All` sentinel
and the text search empty, the competitions page emits an empty WHERE
clause and its result equals the unfiltered query; the rankings page
keeps its `WHERE 1 = 1` placeholder plus the default numeric bounds
(rank in `[1, 10000]`, points in `[0, 1000000]`), so its result equals
the unfiltered query whenever every joined row lies within those
default bounds. -/
theorem all_defaults_unfiltered (cst : CompFilterState) (st : FilterState)
    (cs : CompStore) (store : Store)
    (hcat : cst.selected_category = "All") (htype : cst.selected_type = "All")
    (hgen : cst.selected_gender = "All") (hlev : cst.selected_level = "All")
    (hdef : st = default_filter_state)
    (hbounds : ∀ p ∈ joinRankings store,
      1 ≤ p.2.rank ∧ p.2.rank ≤ 10000 ∧ p.2.points ≤ 1000000) :
    where_condition cst = "" ∧
    filtered_competitions cst cs = unfiltered_competitions cs ∧
    filtered_competitors st store = unfiltered_competitors store := by
  refine ⟨?_, ?_, ?_⟩
  · rw [where_condition]
    have hcl : where_clauses cst = [] := by
      rw [where_clauses, hcat, htype, hgen, hlev]
      simp
    rw [hcl]
    simp
  · have hfl : (joinCompetitions cs).filter (fun p => compMatches cst p.1 p.2) =
        joinCompetitions cs := by
      rw [List.filter_eq_self]
      intro p _
      rw [compMatches, hcat, htype, hgen, hlev]
      simp
    rw [filtered_competitions, unfiltered_competitions, hfl]
  · have hfl : (joinRankings store).filter (fun p => rowMatches st p.1 p.2) =
        joinRankings store := by
      rw [List.filter_eq_self]
      intro p hp
      obtain ⟨h1, h2, h3⟩ := hbounds p hp
      subst hdef
      simp [rowMatches, default_filter_state, h1, h2, h3]
    rw [filtered_competitors, unfiltered_competitors, hfl]

/-- A small competitions store for the witness. -/
def demo_comp_store : CompStore :=
  { categories := [⟨1, "ATP"⟩, ⟨2, "WTA"⟩]
    competitions :=
      [⟨1, "Open A", 1, "singles", "men", "atp_250", none⟩,
       ⟨2, "Open B", 2, "doubles", "women", "wta_premier", some 1⟩] }

/-- Witness for `all_defaults_unfiltered` at the all-`All` dropdown
state, the default rankings filter state, and concrete in-bounds
stores. -/
theorem all_defaults_unfiltered_witness :
    where_condition ⟨"All", "All", "All", "All"⟩ = "" ∧
    filtered_competitions ⟨"All", "All", "All", "All"⟩ demo_comp_store =
      unfiltered_competitions demo_comp_store ∧
    filtered_competitors default_filter_state scenario_store =
      unfiltered_competitors scenario_store :=
  all_defaults_unfiltered ⟨"All", "All", "All", "All"⟩ default_filter_state
    demo_comp_store scenario_store rfl rfl rfl rfl rfl (by decide)

/-! ## C8: order preservation and the DISTINCT country scenario -/

/-- Modelled from the spec: the store's evaluation of
`SELECT DISTINCT country FROM competitors ORDER BY country` — the
distinct countries sorted ascending, one column named `country`. -/
def select_distinct_country (cs : List Competitor) : Table :=
  { cols := ["country"]
    rows := (insertionSort strLe ((cs.map Competitor.country).eraseDups)).map
      (fun s => [s]) }

/-- Competitors with countries USA, ESP, USA, FRA, the spec scenario. -/
def scenario_countries_competitors : List Competitor :=
  [⟨1, "A", "USA", "USA", "A"⟩, ⟨2, "B", "ESP", "ESP", "B"⟩,
   ⟨3, "C", "USA", "USA", "C"⟩, ⟨4, "D", "FRA", "FRA", "D"⟩]

/-- C8: on success the query runner hands back the store's table as-is
(`pd.DataFrame(result.fetchall(), columns=result.keys())` keeps the
result metadata's column order and the fetched row order; no reordering
is applied), and the DISTINCT country scenario yields one column
`country` with exactly the rows ESP, FRA, USA in that order. -/
theorem runQuery_preserves_order (q : String) (eng : Engine) (df : Table)
    (hok : eng.exec q = Except.ok df) :
    run_sql_query q (some eng) = (df, []) ∧
    select_distinct_country scenario_countries_competitors =
      { cols := ["country"], rows := [["ESP"], ["FRA"], ["USA"]] } := by
  refine ⟨?_, by decide⟩
  simp [run_sql_query, hok]

/-- Witness for `runQuery_preserves_order`: an engine whose execution
returns the scenario evaluation, run through `run_sql_query`. -/
theorem runQuery_preserves_order_witness :
    run_sql_query "SELECT DISTINCT country FROM competitors ORDER BY country"
      (some ⟨fun _ => Except.ok (select_distinct_country scenario_countries_competitors)⟩) =
      (select_distinct_country scenario_countries_competitors, []) ∧
    select_distinct_country scenario_countries_competitors =
      { cols := ["country"], rows := [["ESP"], ["FRA"], ["USA"]] } :=
  runQuery_preserves_order "SELECT DISTINCT country FROM competitors ORDER BY country"
    ⟨fun _ => Except.ok (select_distinct_country scenario_countries_competitors)⟩
    (select_distinct_country scenario_countries_competitors) rfl

/-! ## C9: process-wide memoization of the connection handle -/

/-- The process-wide cache behind `@st.cache_resource`: the stored
result of the first call, if any, and a count of how many times the
decorated body (connection opening) actually ran. -/
structure CacheState where
  cached : Option (Option Engine)
  opens : Nat

/-- Modelled from the spec: `st.cache_resource` memoization of
`get_db_connection` (§4.1) — the decorated body runs only when no value
is cached; afterwards every call returns the cached handle without
reopening, for the lifetime of the process. -/
def cached_get_db_connection (attempt : Except String Engine) :
    CacheState → Option Engine × CacheState
  | ⟨some handle, n⟩ => (handle, ⟨some handle, n⟩)
  | ⟨none, n⟩ =>
      (get_db_connection attempt, ⟨some (get_db_connection attempt), n + 1⟩)

/-- C9: once a handle is cached every later call returns it unchanged
without running the connection body again, and in particular the second
call of a process returns exactly the first call's handle with the body
having run once — even if the second attempt's outcome would differ. -/
theorem connection_memoized (a1 a2 : Except String Engine)
    (handle : Option Engine) (n : Nat) :
    cached_get_db_connection a2 ⟨some handle, n⟩ = (handle, ⟨some handle, n⟩) ∧
    (cached_get_db_connection a2 (cached_get_db_connection a1 ⟨none, 0⟩).2).1 =
      (cached_get_db_connection a1 ⟨none, 0⟩).1 ∧
    (cached_get_db_connection a2 (cached_get_db_connection a1 ⟨none, 0⟩).2).2.opens = 1 := by
  exact ⟨rfl, rfl, rfl⟩

/-! ## C10: the two leaderboards return at most ten rows -/

/-- Projection of the top-ranked leaderboard row
(`c.name, cr.rank, cr.points, c.country`). -/
def rankingLeaderRow (p : Competitor × CompetitorRanking) :
    String × Nat × Nat × String :=
  (p.1.name, p.2.rank, p.2.points, p.1.country)

/-- Projection of the highest-points leaderboard row
(`c.name, cr.points, cr.rank, c.country`). -/
def pointsLeaderRow (p : Competitor × CompetitorRanking) :
    String × Nat × Nat × String :=
  (p.1.name, p.2.points, p.2.rank, p.1.country)

/-- Comparator for `ORDER BY cr.points DESC`. -/
def byPointsDesc (x y : Competitor × CompetitorRanking) : Bool :=
  decide (y.2.points ≤ x.2.points)

/-- Modelled from the spec: the rows of `top_ranked_df` (lines 137-146)
— join, `ORDER BY cr.rank`, `LIMIT 10`. -/
def top_ranked_rows (store : Store) : List (String × Nat × Nat × String) :=
  ((insertionSort byRank (joinRankings store)).take 10).map rankingLeaderRow

/-- Modelled from the spec: the rows of `highest_points_df` (lines
153-162) — join, `ORDER BY cr.points DESC`, `LIMIT 10`. -/
def highest_points_rows (store : Store) : List (String × Nat × Nat × String) :=
  ((insertionSort byPointsDesc (joinRankings store)).take 10).map pointsLeaderRow

/-- C10: for every store contents, each leaderboard query returns at
most ten rows. -/
theorem leaderboards_at_most_ten (store : Store) :
    (top_ranked_rows store).length ≤ 10 ∧
    (highest_points_rows store).length ≤ 10 := by
  constructor
  · rw [top_ranked_rows, List.length_map, List.length_take]
    exact min_le_left _ _
  · rw [highest_points_rows, List.length_map, List.length_take]
    exact min_le_left _ _
